import Mathlib

/-!
Verification of the minification core of the scvi-tutorials repository
(src/minification.ipynb) against its natural-language specification.

The repository's notebook exercises the minification transform, the
minified-state tagger/validator and the load-time registry-compatibility
check of scvi-tools.  The implementations of those operations are not part
of the repository source (the notebook only calls them and records their
outputs), so the operations are modelled here from the specification's
contract (sections 3, 4.1-4.3 of spec.md), with the notebook's recorded
outputs (shapes, dtypes, key names, error messages) fixing the concrete
behaviour where they speak.
-/

namespace Minification

/-- Decidable equality for fallible results, used to evaluate the modelled
operations on concrete inputs. -/
instance exceptDecEq {ε α : Type} [DecidableEq ε] [DecidableEq α] :
    DecidableEq (Except ε α)
  | Except.error e1, Except.error e2 =>
      if h : e1 = e2 then isTrue (congrArg Except.error h)
      else isFalse (fun hc => h (Except.error.inj hc))
  | Except.error _, Except.ok _ => isFalse (fun hc => Except.noConfusion hc)
  | Except.ok _, Except.error _ => isFalse (fun hc => Except.noConfusion hc)
  | Except.ok a1, Except.ok a2 =>
      if h : a1 = a2 then isTrue (congrArg Except.ok h)
      else isFalse (fun hc => h (Except.ok.inj hc))

/-- Element dtype of a matrix, as reported by the notebook's outputs
(`numpy.float32`, `numpy.float64`). -/
inductive Dtype where
  | float32
  | float64
deriving DecidableEq, Repr

/-- Observable summary of a (sparse or dense) matrix: its shape, the number
of stored (nonzero) elements, and its element dtype.  The claims under
verification speak only at this level of abstraction. -/
structure Mat where
  rows : Nat
  cols : Nat
  nnz : Nat
  dtype : Dtype
deriving DecidableEq, Repr

/-- Association-list lookup by string key (first match wins). -/
def getKey {α : Type} (l : List (String × α)) (k : String) : Option α :=
  match l with
  | [] => none
  | (k0, v0) :: t => if k0 = k then some v0 else getKey t k

/-- Association-list update: overwrite the first binding of `k`, or append
a new binding when `k` is absent. -/
def setKey {α : Type} (l : List (String × α)) (k : String) (v : α) : List (String × α) :=
  match l with
  | [] => [(k, v)]
  | (k0, v0) :: t => if k0 = k then (k, v) :: t else (k0, v0) :: setKey t k v

/-- Key-presence test for an association list. -/
def hasKey {α : Type} (l : List (String × α)) (k : String) : Bool :=
  (getKey l k).isSome

/-- Modelled from the spec: the AnnotatedDataset data model of spec.md
section 3 (the AnnData container used by the notebook).  `primary_matrix`
is `adata.X`; `layers` is `adata.layers`; `row_metadata_cols` is the list
of `adata.obs` column names; `unstructured_metadata` is `adata.uns`
(values abstracted to strings, which suffices for the minification
record); `row_matrices` is `adata.obsm`; `raw_snapshot` is `adata.raw`,
abstracted to its primary matrix. -/
structure AnnotatedDataset where
  primary_matrix : Mat
  layers : List (String × Mat)
  row_metadata_cols : List String
  unstructured_metadata : List (String × String)
  row_matrices : List (String × Mat)
  raw_snapshot : Option Mat
deriving DecidableEq, Repr

/-- Row count of a dataset (`n_obs`). -/
def rowCount (D : AnnotatedDataset) : Nat := D.primary_matrix.rows

/-- Column count of a dataset (`n_vars`). -/
def colCount (D : AnnotatedDataset) : Nat := D.primary_matrix.cols

/-- Modelled from the spec: LatentPosteriorStatistics (spec.md section 3):
per-row latent posterior mean and variance matrices plus the per-row
observed library-size vector, produced externally by the fitted model. -/
structure LatentStats where
  latent_mean : Mat
  latent_var : Mat
  library_size_rows : Nat
deriving DecidableEq, Repr

/-- The single currently recognized minification kind. -/
inductive MinificationKind where
  | latentPosteriorParameters
deriving DecidableEq, Repr

/-- Result of classifying a dataset: unminified, or minified of a kind. -/
inductive Classification where
  | unminified
  | minified (k : MinificationKind)
deriving DecidableEq, Repr

/-- Error taxonomy of spec.md section 7. -/
inductive SpecError where
  | dimensionMismatch
  | unsupportedOperation (modelType : String)
  | alreadyMinified
  | unknownMinificationKind
  | registryKeyError (key : String)
deriving DecidableEq, Repr

/-- Reserved uns key holding the minification record
(`_scvi_adata_minify_type` in the notebook). -/
def adataMinifyTypeKey : String := "_scvi_adata_minify_type"

/-- Stored value of the recognized minification kind
(`latent_posterior_parameters` in the notebook). -/
def latentKindString : String := "latent_posterior_parameters"

/-- Reserved obs column holding the cached per-row library size
(`_scvi_observed_lib_size` in the notebook). -/
def observedLibSizeKey : String := "_scvi_observed_lib_size"

/-- User-facing reserved obsm name of the latent posterior mean. -/
def userQzmKey : String := "X_latent_qzm"

/-- User-facing reserved obsm name of the latent posterior variance. -/
def userQzvKey : String := "X_latent_qzv"

/-- Internal reserved obsm name of the latent posterior mean. -/
def scviQzmKey : String := "_scvi_latent_qzm"

/-- Internal reserved obsm name of the latent posterior variance. -/
def scviQzvKey : String := "_scvi_latent_qzv"

/-- Modelled from the spec: the classifier of spec.md section 4.2
(`classify`), whose implementation is not in the repository source.
Absence of the reserved uns key means unminified; a recognized kind is
returned as such; an unrecognized kind fails with
`UnknownMinificationKind`. -/
def classify (D : AnnotatedDataset) : Except SpecError Classification :=
  match getKey D.unstructured_metadata adataMinifyTypeKey with
  | none => Except.ok Classification.unminified
  | some v =>
      if v = latentKindString then
        Except.ok (Classification.minified MinificationKind.latentPosteriorParameters)
      else
        Except.error SpecError.unknownMinificationKind

/-- Modelled from the spec: `is_minified` of spec.md section 4.2:
true exactly when `classify` does not return `Unminified`
(the notebook calls this as `scvi.data._utils._is_minified`). -/
def is_minified (D : AnnotatedDataset) : Bool :=
  match classify D with
  | Except.ok Classification.unminified => false
  | _ => true

/-- Modelled from the spec: the value-level minification transform of
spec.md section 4.1 (`get_minified_adata_scrna` plus the facade's field
additions, not in the repository source), with the primary-matrix dtype
fixed by the notebook's recorded outputs: the emptied `adata.X` is
reported as float32 together with a FutureWarning that the dtype was
converted from float64, while the emptied `counts` layer keeps float64.
The result copies metadata, empties the primary matrix and every layer
shape-preservingly, drops the raw snapshot, stores the latent mean and
variance under both the user-facing and the internal reserved obsm names,
adds the observed-library-size obs column, and writes the minification
record into uns. -/
def minifyDataset (D : AnnotatedDataset) (S : LatentStats) : AnnotatedDataset :=
  { primary_matrix :=
      { rows := D.primary_matrix.rows
        cols := D.primary_matrix.cols
        nnz := 0
        dtype := Dtype.float32 }
    layers := D.layers.map (fun p => (p.1, { p.2 with nnz := 0 }))
    row_metadata_cols := D.row_metadata_cols ++ [observedLibSizeKey]
    unstructured_metadata := setKey D.unstructured_metadata adataMinifyTypeKey latentKindString
    row_matrices :=
      setKey (setKey (setKey (setKey D.row_matrices
        userQzmKey S.latent_mean) userQzvKey S.latent_var)
        scviQzmKey S.latent_mean) scviQzvKey S.latent_var
    raw_snapshot := none }

/-- Modelled from the spec: the guarded minification transform of spec.md
section 4.1 with its failure modes (section 7).  `supports` records
whether the model's concrete module type declares minification support.
Re-minification of an already tagged dataset is always rejected with
`AlreadyMinified` (spec.md section 8, idempotence-of-rejection), so that
guard is checked first. -/
def minify (D : AnnotatedDataset) (S : LatentStats) (supports : Bool) :
    Except SpecError AnnotatedDataset :=
  if hasKey D.unstructured_metadata adataMinifyTypeKey then
    Except.error SpecError.alreadyMinified
  else if !supports then
    Except.error (SpecError.unsupportedOperation "SCVI")
  else if S.latent_mean.rows ≠ rowCount D ∨ S.latent_var.rows ≠ rowCount D ∨
      S.library_size_rows ≠ rowCount D then
    Except.error SpecError.dimensionMismatch
  else
    Except.ok (minifyDataset D S)

/-- An object store mapping reference identifiers to dataset objects, with
a fresh-identifier counter.  Distinct identifiers model distinct Python
object identities (the notebook's `model.adata is bdata` checks). -/
structure Heap where
  objs : List (Nat × AnnotatedDataset)
  next : Nat
deriving DecidableEq, Repr

/-- Look up the dataset object a reference points to. -/
def lookupObj (l : List (Nat × AnnotatedDataset)) (r : Nat) : Option AnnotatedDataset :=
  match l with
  | [] => none
  | (r0, d0) :: t => if r0 = r then some d0 else lookupObj t r

/-- Well-formedness of the object store: every live reference is below the
fresh-identifier counter. -/
def heapWF (h : Heap) : Bool :=
  h.objs.all (fun p => p.1 < h.next)

/-- Modelled from the spec: the facade-level minification call
(`model.minify_adata()`, not in the repository source) acting on the
object store: it reads the dataset behind reference `r`, runs the guarded
transform, and on success allocates the result as a fresh object, leaving
the object behind `r` untouched (spec.md section 4.1: the transform never
mutates its input and always returns a new instance).  Returns `none` only
on a dangling reference. -/
def minifyRef (h : Heap) (r : Nat) (S : LatentStats) (supports : Bool) :
    Option (Except SpecError (Heap × Nat)) :=
  (lookupObj h.objs r).map (fun D =>
    (minify D S supports).map (fun R =>
      (Heap.mk ((h.next, R) :: h.objs) (h.next + 1), h.next)))

/-- Modelled from the spec: a saved model as the load-time compatibility
check sees it (spec.md sections 3 and 4.3): its concrete type name,
whether its class is minification-aware, the field keys its setup always
registers, and the set of field keys for which its saved source registry
holds a state entry. -/
structure SavedModel where
  model_type : String
  aware : Bool
  base_fields : List String
  source_registry : List String
deriving DecidableEq, Repr

/-- A successfully loaded model: the saved model paired with its active
dataset. -/
structure LoadedModel where
  model_type : String
  aware : Bool
  active : AnnotatedDataset
deriving DecidableEq, Repr

/-- The minification-specific field keys a minification-aware model
registers when its candidate dataset is tagged minified (observed library
size and the internal latent statistics). -/
def minificationFieldKeys : List String :=
  [observedLibSizeKey, scviQzmKey, scviQzvKey]

/-- The field keys registration demands of the source registry at load
time: the model's base fields, plus the minification-specific fields when
the model is aware and the candidate dataset is tagged minified. -/
def requiredFields (m : SavedModel) (candidateMinified : Bool) : List String :=
  m.base_fields ++ (if m.aware && candidateMinified then minificationFieldKeys else [])

/-- The user-visible message of each error, as recorded by the notebook
(the unsupported-operation message names the model type explicitly). -/
def errorMessage : SpecError → String
  | SpecError.dimensionMismatch => "Statistics dimensions disagree with the dataset."
  | SpecError.unsupportedOperation t => "The " ++ t ++ " model currently does not support minified data."
  | SpecError.alreadyMinified => "The dataset is already minified."
  | SpecError.unknownMinificationKind => "Unknown minification kind."
  | SpecError.registryKeyError k => "KeyError: " ++ k

/-- Modelled from the spec: the load-time registry-compatibility check of
spec.md section 4.3 (`SCVI.load(path, adata=...)`, not in the repository
source).  A minification-unaware model paired with a minified candidate is
rejected up front with `UnsupportedOperation` naming the model type; then
every required field must have a state entry in the saved source registry,
otherwise loading fails with `RegistryKeyError` naming the missing entry
(the notebook records this as `KeyError: state_registry`); otherwise the
model loads with the candidate as its active dataset. -/
def load (m : SavedModel) (cand : AnnotatedDataset) : Except SpecError LoadedModel :=
  if !m.aware && is_minified cand then
    Except.error (SpecError.unsupportedOperation m.model_type)
  else
    match (requiredFields m (is_minified cand)).find?
        (fun k => !(m.source_registry.contains k)) with
    | some k => Except.error (SpecError.registryKeyError k)
    | none => Except.ok (LoadedModel.mk m.model_type m.aware cand)

/-- Mat `m1` is the shape-preserving emptying of `m0`: same shape, same
dtype, zero stored elements. -/
def matEmptiedFrom (m0 m1 : Mat) : Bool :=
  decide (m1.rows = m0.rows) && decide (m1.cols = m0.cols) &&
  decide (m1.dtype = m0.dtype) && decide (m1.nnz = 0)

/-- Layer list `l1` is the pointwise shape-preserving emptying of `l0`:
same names in the same order, each matrix emptied with shape and dtype
kept. -/
def layersEmptiedFrom : List (String × Mat) → List (String × Mat) → Bool
  | [], [] => true
  | (n0, m0) :: t0, (n1, m1) :: t1 =>
      decide (n1 = n0) && matEmptiedFrom m0 m1 && layersEmptiedFrom t0 t1
  | _, _ => false

/-- The dataset of the notebook scenario before minification: 18641 rows by
1200 columns, a float64 primary matrix (the FutureWarning records that the
minified X was converted to float32 from float64), one `counts` layer, a
raw snapshot, and the user-stored latent obsm entries `X_latent_qzm` and
`X_latent_qzv`. -/
def D0 : AnnotatedDataset :=
  { primary_matrix := Mat.mk 18641 1200 5000000 Dtype.float64
    layers := [("counts", Mat.mk 18641 1200 4000000 Dtype.float64)]
    row_metadata_cols := ["n_counts", "cell_source", "_scvi_batch"]
    unstructured_metadata := [("hvg", "present"), ("log1p", "present")]
    row_matrices :=
      [("X_latent_qzm", Mat.mk 18641 10 186410 Dtype.float32),
       ("X_latent_qzv", Mat.mk 18641 10 186410 Dtype.float32)]
    raw_snapshot := some (Mat.mk 18641 11909 26000000 Dtype.float64) }

/-- The latent posterior statistics of the notebook scenario: 10-dimensional
mean and variance for 18641 rows, plus the 18641-row library-size vector. -/
def S0 : LatentStats :=
  { latent_mean := Mat.mk 18641 10 186410 Dtype.float32
    latent_var := Mat.mk 18641 10 186410 Dtype.float32
    library_size_rows := 18641 }

/-- A one-object store holding `D0` at reference 0. -/
def H0 : Heap := Heap.mk [(0, D0)] 1

/-- An already minified dataset: the result of minifying `D0`. -/
def DTagged : AnnotatedDataset := minifyDataset D0 S0

/-- A dataset carrying the reserved uns key with an unrecognized
minification kind. -/
def DUnknown : AnnotatedDataset :=
  { D0 with unstructured_metadata :=
      [("hvg", "present"), (adataMinifyTypeKey, "quantized_counts")] }

/-- A saved model whose class is not minification-aware. -/
def mUnaware : SavedModel :=
  SavedModel.mk "MyModel" false ["X", "batch"] ["X", "batch"]

/-- A saved minification-aware model whose registry covers its base
fields. -/
def mAware : SavedModel :=
  SavedModel.mk "SCVI" true ["X", "batch"] ["X", "batch"]

/-! Helper lemmas about the association-list operations, the object store
and the transform. -/

theorem getKey_setKey_self {α : Type} (l : List (String × α)) (k : String) (v : α) :
    getKey (setKey l k v) k = some v := by
  induction l with
  | nil => simp [setKey, getKey]
  | cons p t ih =>
      obtain ⟨k0, v0⟩ := p
      by_cases hk : k0 = k
      · simp [setKey, hk, getKey]
      · simp [setKey, hk, getKey, ih]

theorem getKey_setKey_ne {α : Type} (l : List (String × α)) (k k1 : String) (v : α)
    (hne : k1 ≠ k) : getKey (setKey l k v) k1 = getKey l k1 := by
  have hne2 : k ≠ k1 := fun h => hne h.symm
  induction l with
  | nil => simp [setKey, getKey, hne2]
  | cons p t ih =>
      obtain ⟨k0, v0⟩ := p
      by_cases hk : k0 = k
      · subst hk
        simp [setKey, getKey, hne2]
      · simp [setKey, hk, getKey, ih]

theorem getKey_eq_none_of_hasKey_false {α : Type} (l : List (String × α)) (k : String)
    (h : hasKey l k = false) : getKey l k = none := by
  unfold hasKey at h
  cases hg : getKey l k with
  | none => rfl
  | some v => rw [hg] at h; simp at h

theorem classify_of_no_key (D : AnnotatedDataset)
    (h : getKey D.unstructured_metadata adataMinifyTypeKey = none) :
    classify D = Except.ok Classification.unminified := by
  unfold classify
  rw [h]

theorem is_minified_of_no_key (D : AnnotatedDataset)
    (h : getKey D.unstructured_metadata adataMinifyTypeKey = none) :
    is_minified D = false := by
  unfold is_minified
  rw [classify_of_no_key D h]

theorem minify_ok_eq (D : AnnotatedDataset) (S : LatentStats) (sup : Bool)
    (R : AnnotatedDataset) (h : minify D S sup = Except.ok R) :
    R = minifyDataset D S := by
  unfold minify at h
  split at h
  · exact absurd h (by simp)
  · split at h
    · exact absurd h (by simp)
    · split at h
      · exact absurd h (by simp)
      · exact (Except.ok.inj h).symm

theorem minify_ok_not_tagged (D : AnnotatedDataset) (S : LatentStats) (sup : Bool)
    (R : AnnotatedDataset) (h : minify D S sup = Except.ok R) :
    hasKey D.unstructured_metadata adataMinifyTypeKey = false := by
  by_cases hk : hasKey D.unstructured_metadata adataMinifyTypeKey = true
  · rw [minify, if_pos hk] at h
    exact absurd h (by simp)
  · simpa using hk

theorem layersEmptiedFrom_map (l : List (String × Mat)) :
    layersEmptiedFrom l (l.map (fun p => (p.1, { p.2 with nnz := 0 }))) = true := by
  induction l with
  | nil => rfl
  | cons p t ih =>
      obtain ⟨n, m⟩ := p
      simp [layersEmptiedFrom, matEmptiedFrom, ih]

theorem lookup_lt_of_all (l : List (Nat × AnnotatedDataset)) (n r : Nat) (D : AnnotatedDataset)
    (hall : l.all (fun p => p.1 < n) = true) (hr : lookupObj l r = some D) : r < n := by
  induction l with
  | nil => simp [lookupObj] at hr
  | cons p t ih =>
      obtain ⟨r0, d0⟩ := p
      rw [List.all_cons, Bool.and_eq_true] at hall
      by_cases h0 : r0 = r
      · subst h0; exact of_decide_eq_true hall.1
      · rw [lookupObj, if_neg h0] at hr
        exact ih hall.2 hr

theorem lookupObj_cons_self (l : List (Nat × AnnotatedDataset)) (n : Nat) (R : AnnotatedDataset) :
    lookupObj ((n, R) :: l) n = some R := by
  simp [lookupObj]

theorem lookupObj_cons_ne (l : List (Nat × AnnotatedDataset)) (n r : Nat) (R : AnnotatedDataset)
    (hne : n ≠ r) : lookupObj ((n, R) :: l) r = lookupObj l r := by
  simp [lookupObj, hne]

theorem minifyRef_ok (h : Heap) (r : Nat) (S : LatentStats) (sup : Bool)
    (D : AnnotatedDataset) (h2 : Heap) (r2 : Nat)
    (hr : lookupObj h.objs r = some D)
    (hres : minifyRef h r S sup = some (Except.ok (h2, r2))) :
    minify D S sup = Except.ok (minifyDataset D S) ∧
    h2 = Heap.mk ((h.next, minifyDataset D S) :: h.objs) (h.next + 1) ∧ r2 = h.next := by
  cases hmin : minify D S sup with
  | error e =>
      exfalso
      simp [minifyRef, hr, hmin, Except.map] at hres
  | ok R =>
      simp [minifyRef, hr, hmin, Except.map] at hres
      have hR : R = minifyDataset D S := minify_ok_eq D S sup R hmin
      subst hR
      exact ⟨rfl, hres.1.symm, hres.2.symm⟩

theorem find?_none_of_all (l : List String) (p : String → Bool)
    (h : l.all p = true) : l.find? (fun k => !(p k)) = none := by
  induction l with
  | nil => rfl
  | cons a t ih =>
      rw [List.all_cons, Bool.and_eq_true] at h
      simp [List.find?_cons, h.1, ih h.2]

theorem minifyRef_frame (h : Heap) (r : Nat) (D : AnnotatedDataset) (S : LatentStats)
    (sup : Bool) (h2 : Heap) (r2 : Nat)
    (hwf : heapWF h = true) (hr : lookupObj h.objs r = some D)
    (hres : minifyRef h r S sup = some (Except.ok (h2, r2))) :
    lookupObj h2.objs r = some D := by
  obtain ⟨hmin, hh2, hr2⟩ := minifyRef_ok h r S sup D h2 r2 hr hres
  have hlt : r < h.next := lookup_lt_of_all h.objs h.next r D hwf hr
  rw [hh2]
  exact (lookupObj_cons_ne h.objs h.next r (minifyDataset D S) (Nat.ne_of_gt hlt)).trans hr

/-! The claims. -/

/-- C1: for every dataset D and latent statistics S with matching row
count, a successful `minify` on the object behind reference `r` allocates
its result under a fresh reference — a different object identity from D —
and the resulting dataset has exactly the same row count and column count
as D. -/
theorem minify_returns_fresh_object_same_shape
    (h : Heap) (r : Nat) (D : AnnotatedDataset) (S : LatentStats) (sup : Bool)
    (h2 : Heap) (r2 : Nat)
    (hwf : heapWF h = true) (hr : lookupObj h.objs r = some D)
    (hres : minifyRef h r S sup = some (Except.ok (h2, r2))) :
    r2 ≠ r ∧ ∃ R, lookupObj h2.objs r2 = some R ∧
      rowCount R = rowCount D ∧ colCount R = colCount D := by
  obtain ⟨hmin, hh2, hr2⟩ := minifyRef_ok h r S sup D h2 r2 hr hres
  have hlt : r < h.next := lookup_lt_of_all h.objs h.next r D hwf hr
  subst hh2; subst hr2
  exact ⟨Nat.ne_of_gt hlt, minifyDataset D S,
    lookupObj_cons_self h.objs h.next (minifyDataset D S), rfl, rfl⟩

theorem minify_returns_fresh_object_same_shape_witness :
    (1 : Nat) ≠ 0 ∧ ∃ R,
      lookupObj (Heap.mk [(1, minifyDataset D0 S0), (0, D0)] 2).objs 1 = some R ∧
      rowCount R = rowCount D0 ∧ colCount R = colCount D0 :=
  minify_returns_fresh_object_same_shape H0 0 D0 S0 true
    (Heap.mk [(1, minifyDataset D0 S0), (0, D0)] 2) 1
    (by decide) (by decide) (by decide)

/-- C2: after a successful `minify`, the input dataset D is observably
unchanged: the reference that denoted D before the call still denotes
exactly the same dataset value, so D's primary matrix, every layer and
its raw snapshot keep their shapes and nonzero counts, and no reserved
metadata key of D is mutated. -/
theorem minify_leaves_input_unchanged
    (h : Heap) (r : Nat) (D : AnnotatedDataset) (S : LatentStats) (sup : Bool)
    (h2 : Heap) (r2 : Nat)
    (hwf : heapWF h = true) (hr : lookupObj h.objs r = some D)
    (hres : minifyRef h r S sup = some (Except.ok (h2, r2))) :
    lookupObj h2.objs r = some D :=
  minifyRef_frame h r D S sup h2 r2 hwf hr hres

theorem minify_leaves_input_unchanged_witness :
    lookupObj (Heap.mk [(1, minifyDataset D0 S0), (0, D0)] 2).objs 0 = some D0 :=
  minify_leaves_input_unchanged H0 0 D0 S0 true
    (Heap.mk [(1, minifyDataset D0 S0), (0, D0)] 2) 1
    (by decide) (by decide) (by decide)

/-- C3 counterexample: the claim that every matrix of the minified result
keeps an identical dtype fails on the primary matrix.  At the notebook's
own scenario — a float64 `adata.X`, as recorded by the notebook's
FutureWarning and output displays — minify succeeds, the `counts` layer
stays float64, but the minified primary matrix's dtype is float32, not
D's float64. -/
theorem minify_primary_dtype_not_preserved :
    minify D0 S0 true = Except.ok (minifyDataset D0 S0) ∧
    D0.primary_matrix.dtype = Dtype.float64 ∧
    (minifyDataset D0 S0).primary_matrix.dtype = Dtype.float32 ∧
    (minifyDataset D0 S0).primary_matrix.dtype ≠ D0.primary_matrix.dtype := by
  decide

/-- C3 amended: in the result of a successful `minify`, the primary matrix
and every layer are emptied with zero stored elements and identical shape;
every layer also keeps its dtype, but the primary matrix's dtype becomes
float32 (so it is preserved only when D's primary matrix was already
float32). -/
theorem minify_empties_shape_preserving
    (D : AnnotatedDataset) (S : LatentStats) (sup : Bool) (R : AnnotatedDataset)
    (h : minify D S sup = Except.ok R) :
    R.primary_matrix.rows = D.primary_matrix.rows ∧
    R.primary_matrix.cols = D.primary_matrix.cols ∧
    R.primary_matrix.nnz = 0 ∧
    R.primary_matrix.dtype = Dtype.float32 ∧
    layersEmptiedFrom D.layers R.layers = true := by
  have hR := minify_ok_eq D S sup R h
  subst hR
  exact ⟨rfl, rfl, rfl, rfl, layersEmptiedFrom_map D.layers⟩

theorem minify_empties_shape_preserving_witness :
    (minifyDataset D0 S0).primary_matrix.rows = D0.primary_matrix.rows ∧
    (minifyDataset D0 S0).primary_matrix.cols = D0.primary_matrix.cols ∧
    (minifyDataset D0 S0).primary_matrix.nnz = 0 ∧
    (minifyDataset D0 S0).primary_matrix.dtype = Dtype.float32 ∧
    layersEmptiedFrom D0.layers (minifyDataset D0 S0).layers = true :=
  minify_empties_shape_preserving D0 S0 true (minifyDataset D0 S0) (by decide)

/-- C4: the result of a successful `minify` has no raw snapshot, stores
the latent mean and variance as row-indexed auxiliary matrices under both
the user-facing reserved names and the distinct internal reserved pair,
contains the observed-library-size column in its row metadata, and carries
the minification record of kind LatentPosteriorParameters under the
reserved unstructured-metadata key. -/
theorem minify_adds_reserved_fields
    (D : AnnotatedDataset) (S : LatentStats) (sup : Bool) (R : AnnotatedDataset)
    (h : minify D S sup = Except.ok R) :
    R.raw_snapshot = none ∧
    getKey R.row_matrices userQzmKey = some S.latent_mean ∧
    getKey R.row_matrices userQzvKey = some S.latent_var ∧
    getKey R.row_matrices scviQzmKey = some S.latent_mean ∧
    getKey R.row_matrices scviQzvKey = some S.latent_var ∧
    scviQzmKey ≠ userQzmKey ∧ scviQzvKey ≠ userQzvKey ∧
    observedLibSizeKey ∈ R.row_metadata_cols ∧
    getKey R.unstructured_metadata adataMinifyTypeKey = some latentKindString := by
  have hR := minify_ok_eq D S sup R h
  subst hR
  refine ⟨rfl, ?_, ?_, ?_, ?_, by decide, by decide, by simp [minifyDataset], ?_⟩
  · simp only [minifyDataset]
    rw [getKey_setKey_ne _ _ _ _ (by decide), getKey_setKey_ne _ _ _ _ (by decide),
      getKey_setKey_ne _ _ _ _ (by decide), getKey_setKey_self]
  · simp only [minifyDataset]
    rw [getKey_setKey_ne _ _ _ _ (by decide), getKey_setKey_ne _ _ _ _ (by decide),
      getKey_setKey_self]
  · simp only [minifyDataset]
    rw [getKey_setKey_ne _ _ _ _ (by decide), getKey_setKey_self]
  · simp only [minifyDataset]
    exact getKey_setKey_self _ _ _
  · simp only [minifyDataset]
    exact getKey_setKey_self _ _ _

theorem minify_adds_reserved_fields_witness :
    (minifyDataset D0 S0).raw_snapshot = none ∧
    getKey (minifyDataset D0 S0).row_matrices userQzmKey = some S0.latent_mean ∧
    getKey (minifyDataset D0 S0).row_matrices userQzvKey = some S0.latent_var ∧
    getKey (minifyDataset D0 S0).row_matrices scviQzmKey = some S0.latent_mean ∧
    getKey (minifyDataset D0 S0).row_matrices scviQzvKey = some S0.latent_var ∧
    scviQzmKey ≠ userQzmKey ∧ scviQzvKey ≠ userQzvKey ∧
    observedLibSizeKey ∈ (minifyDataset D0 S0).row_metadata_cols ∧
    getKey (minifyDataset D0 S0).unstructured_metadata adataMinifyTypeKey =
      some latentKindString :=
  minify_adds_reserved_fields D0 S0 true (minifyDataset D0 S0) (by decide)

/-- C5: classifying the result of a successful `minify` yields
LatentPosteriorParameters, and classifying any dataset whose unstructured
metadata lacks the reserved key yields Unminified, with `is_minified`
false on it. -/
theorem classify_minify_roundtrip
    (D : AnnotatedDataset) (S : LatentStats) (sup : Bool) (R : AnnotatedDataset)
    (D2 : AnnotatedDataset)
    (h : minify D S sup = Except.ok R)
    (h2 : getKey D2.unstructured_metadata adataMinifyTypeKey = none) :
    classify R = Except.ok (Classification.minified MinificationKind.latentPosteriorParameters) ∧
    classify D2 = Except.ok Classification.unminified ∧
    is_minified D2 = false := by
  have hR := minify_ok_eq D S sup R h
  subst hR
  refine ⟨?_, classify_of_no_key D2 h2, is_minified_of_no_key D2 h2⟩
  simp [classify, minifyDataset, getKey_setKey_self]

theorem classify_minify_roundtrip_witness :
    classify (minifyDataset D0 S0) =
      Except.ok (Classification.minified MinificationKind.latentPosteriorParameters) ∧
    classify D0 = Except.ok Classification.unminified ∧
    is_minified D0 = false :=
  classify_minify_roundtrip D0 S0 true (minifyDataset D0 S0) D0 (by decide) (by decide)

/-- C6: a dataset whose reserved unstructured-metadata key holds an
unrecognized minification kind makes `classify` fail with
UnknownMinificationKind; `classify` never returns Unminified or any
recognized kind for such a dataset. -/
theorem classify_unknown_kind_fails
    (D : AnnotatedDataset) (v : String)
    (h : getKey D.unstructured_metadata adataMinifyTypeKey = some v)
    (hv : v ≠ latentKindString) :
    classify D = Except.error SpecError.unknownMinificationKind ∧
    ∀ c, classify D ≠ Except.ok c := by
  have hc : classify D = Except.error SpecError.unknownMinificationKind := by
    unfold classify
    rw [h]
    simp [hv]
  exact ⟨hc, fun c hcc => by rw [hc] at hcc; exact Except.noConfusion hcc⟩

theorem classify_unknown_kind_fails_witness :
    classify DUnknown = Except.error SpecError.unknownMinificationKind ∧
    ∀ c, classify DUnknown ≠ Except.ok c :=
  classify_unknown_kind_fails DUnknown "quantized_counts" (by decide) (by decide)

/-- C7: `minify` on a dataset already tagged as minified fails with
AlreadyMinified, for every statistics S and every support flag — it never
silently re-minifies or succeeds idempotently. -/
theorem minify_rejects_already_minified
    (D : AnnotatedDataset) (S : LatentStats) (sup : Bool)
    (h : hasKey D.unstructured_metadata adataMinifyTypeKey = true) :
    minify D S sup = Except.error SpecError.alreadyMinified := by
  unfold minify
  rw [if_pos h]

theorem minify_rejects_already_minified_witness :
    minify DTagged S0 true = Except.error SpecError.alreadyMinified :=
  minify_rejects_already_minified DTagged S0 true (by decide)

/-- C8: loading a model whose class is not minification-aware with a
candidate dataset tagged as minified fails with UnsupportedOperation, and
the error's message names the model type explicitly. -/
theorem load_unaware_with_minified_fails
    (m : SavedModel) (cand : AnnotatedDataset)
    (ha : m.aware = false) (hm : is_minified cand = true) :
    load m cand = Except.error (SpecError.unsupportedOperation m.model_type) ∧
    errorMessage (SpecError.unsupportedOperation m.model_type) =
      "The " ++ m.model_type ++ " model currently does not support minified data." := by
  exact ⟨by simp [load, ha, hm], rfl⟩

theorem load_unaware_with_minified_fails_witness :
    load mUnaware DTagged = Except.error (SpecError.unsupportedOperation mUnaware.model_type) ∧
    errorMessage (SpecError.unsupportedOperation mUnaware.model_type) =
      "The " ++ mUnaware.model_type ++ " model currently does not support minified data." :=
  load_unaware_with_minified_fails mUnaware DTagged (by decide) (by decide)

/-- C9: loading a minification-aware model with an unminified candidate
dataset whose required fields are all covered by the model's saved
registry succeeds, and the loaded model's active dataset becomes the
candidate. -/
theorem load_aware_with_unminified_succeeds
    (m : SavedModel) (cand : AnnotatedDataset)
    (ha : m.aware = true) (hm : is_minified cand = false)
    (hcompat : m.base_fields.all (fun k => m.source_registry.contains k) = true) :
    ∃ L, load m cand = Except.ok L ∧ L.active = cand := by
  have h1 : (!m.aware && is_minified cand) = false := by rw [ha, hm]; rfl
  have h2 : (requiredFields m (is_minified cand)).find?
      (fun k => !(m.source_registry.contains k)) = none := by
    rw [hm]
    unfold requiredFields
    rw [ha]
    simpa using find?_none_of_all m.base_fields _ hcompat
  refine ⟨LoadedModel.mk m.model_type m.aware cand, ?_, rfl⟩
  unfold load
  rw [if_neg (by rw [h1]; exact Bool.false_ne_true), h2]

theorem load_aware_with_unminified_succeeds_witness :
    ∃ L, load mAware D0 = Except.ok L ∧ L.active = D0 :=
  load_aware_with_unminified_succeeds mAware D0 (by decide) (by decide) (by decide)

/-- C10: after a successful `minify`, the original dataset D acquires none
of the reserved minification metadata — no minification-kind uns entry, no
observed-library-size row-metadata column, no internal reserved latent
auxiliary matrices — while the user-stored latent auxiliary matrices it
held before the call are retained unchanged, and `is_minified` of it is
still false. -/
theorem minify_original_gains_no_reserved_metadata
    (h : Heap) (r : Nat) (D : AnnotatedDataset) (S : LatentStats) (sup : Bool)
    (h2 : Heap) (r2 : Nat)
    (hwf : heapWF h = true) (hr : lookupObj h.objs r = some D)
    (hres : minifyRef h r S sup = some (Except.ok (h2, r2)))
    (huns : hasKey D.unstructured_metadata adataMinifyTypeKey = false)
    (hobs : observedLibSizeKey ∉ D.row_metadata_cols)
    (hqzm : hasKey D.row_matrices scviQzmKey = false)
    (hqzv : hasKey D.row_matrices scviQzvKey = false) :
    ∃ X, lookupObj h2.objs r = some X ∧
      hasKey X.unstructured_metadata adataMinifyTypeKey = false ∧
      observedLibSizeKey ∉ X.row_metadata_cols ∧
      hasKey X.row_matrices scviQzmKey = false ∧
      hasKey X.row_matrices scviQzvKey = false ∧
      getKey X.row_matrices userQzmKey = getKey D.row_matrices userQzmKey ∧
      getKey X.row_matrices userQzvKey = getKey D.row_matrices userQzvKey ∧
      is_minified X = false := by
  have hX := minifyRef_frame h r D S sup h2 r2 hwf hr hres
  exact ⟨D, hX, huns, hobs, hqzm, hqzv, rfl, rfl,
    is_minified_of_no_key D (getKey_eq_none_of_hasKey_false _ _ huns)⟩

theorem minify_original_gains_no_reserved_metadata_witness :
    ∃ X, lookupObj (Heap.mk [(1, minifyDataset D0 S0), (0, D0)] 2).objs 0 = some X ∧
      hasKey X.unstructured_metadata adataMinifyTypeKey = false ∧
      observedLibSizeKey ∉ X.row_metadata_cols ∧
      hasKey X.row_matrices scviQzmKey = false ∧
      hasKey X.row_matrices scviQzvKey = false ∧
      getKey X.row_matrices userQzmKey = getKey D0.row_matrices userQzmKey ∧
      getKey X.row_matrices userQzvKey = getKey D0.row_matrices userQzvKey ∧
      is_minified X = false :=
  minify_original_gains_no_reserved_metadata H0 0 D0 S0 true
    (Heap.mk [(1, minifyDataset D0 S0), (0, D0)] 2) 1
    (by decide) (by decide) (by decide) (by decide) (by decide) (by decide) (by decide)

end Minification
